import Mathlib

/-!
# Verification of the chart computation-and-caching pipeline

Shallow embedding of `src/grpc/charts.rs` from the app-center-ratings
repository: the `get_chart` RPC handler, the `get_chart_cached` memoized
store fetch, and the protobuf conversion helpers, together with proofs of
the specification claims about them.

Modelling conventions:
* wire integers (`i32`) are `Int`; unsigned counters (`u64`) are `Nat`;
* time is an explicit `Nat` parameter (seconds); the cache TTL of 86400
  seconds comes from the `time = 86400` attribute argument in the source;
* fallible calls return `Except`; the one panicking conversion
  (`RatingsBand::from_repr(..).unwrap()`) is modelled with `Option`,
  `none` standing for the panic;
* the external collaborators (the vote-summary store behind
  `VoteSummary::get_for_timeframe` and the snap-name lookup behind
  `get_snap_name`) are parameters of the embedded functions;
* the `#[cached(time = 86400, sync_writes = true, key = "String",
  convert = ..., result = true)]` attribute macro from the `cached` crate
  is embedded by its documented expansion: a cache-wide mutex is held for
  the whole check–compute–store sequence (`sync_writes = true`), so every
  call executes atomically and a concurrent execution is equivalent to
  running the calls in some sequential order; entries expire `time`
  seconds after they were stored; and, because of `result = true`, only
  the `Ok` variant of the computed `Result` is ever written to the cache,
  while an `Err` is returned to the caller without touching the cache.
  Each embedded cache call therefore maps an explicit cache state and the
  current time to a result, the successor state, and the number of store
  fetches it performed (0 or 1).
-/

set_option autoImplicit false

/-- Modelled from the spec: `RatingsBand` (in the `ratings` module, outside
the provided source file) is a closed enumeration with exactly six variants
in this order; this system only transports the value. -/
inductive RatingsBand where
  | veryGood
  | good
  | neutral
  | poor
  | veryPoor
  | insufficientVotes
deriving DecidableEq

/-- Modelled from the spec: the `RatingsBand as i32` cast, the variants
carrying their declaration-order discriminants 0..5. -/
def RatingsBand.as_i32 : RatingsBand → Int
  | .veryGood => 0
  | .good => 1
  | .neutral => 2
  | .poor => 3
  | .veryPoor => 4
  | .insufficientVotes => 5

/-- Modelled from the spec: `RatingsBand::from_repr` (strum), the partial
inverse of the discriminant cast: `some` exactly on the six ordinals 0..5. -/
def RatingsBand.from_repr (i : Int) : Option RatingsBand :=
  if i = 0 then some .veryGood
  else if i = 1 then some .good
  else if i = 2 then some .neutral
  else if i = 3 then some .poor
  else if i = 4 then some .veryPoor
  else if i = 5 then some .insufficientVotes
  else none

/-- Modelled from the spec: `Timeframe` (in the `db` module, outside the
provided source file) is a closed enumeration of supported windows plus an
`Unspecified` fallback used when an unrecognized wire value is received. -/
inductive Timeframe where
  | unspecified
  | week
  | month
deriving DecidableEq

/-- Modelled from the spec: the `Timeframe as i32` cast (discriminants in
declaration order, `Unspecified = 0`). -/
def Timeframe.as_i32 : Timeframe → Int
  | .unspecified => 0
  | .week => 1
  | .month => 2

/-- Modelled from the spec: `Timeframe::from_repr` (strum), `some` exactly
on the declared discriminants. -/
def Timeframe.from_repr (i : Int) : Option Timeframe :=
  if i = 0 then some .unspecified
  else if i = 1 then some .week
  else if i = 2 then some .month
  else none

/-- Modelled from the spec: the Rust `Debug` rendering of a `Timeframe`,
used by the cache-key `convert` expression. -/
def Timeframe.debug_fmt : Timeframe → String
  | .unspecified => "Unspecified"
  | .week => "Week"
  | .month => "Month"

/-- Modelled from the spec: `Category` (in the `db` module, outside the
provided source file) is a closed enumeration identifying an item
classification; representative variants suffice here, since no claim
depends on the exact variant set, only on some ordinals decoding and
others not. -/
inductive Category where
  | artAndDesign
  | games
  | utilities
deriving DecidableEq

/-- Modelled from the spec: the `Category as i32` cast (declaration-order
discriminants). -/
def Category.as_i32 : Category → Int
  | .artAndDesign => 0
  | .games => 1
  | .utilities => 2

/-- Modelled from the spec: `Category::from_repr` (strum), `some` exactly
on the declared discriminants. -/
def Category.from_repr (i : Int) : Option Category :=
  if i = 0 then some .artAndDesign
  else if i = 1 then some .games
  else if i = 2 then some .utilities
  else none

/-- Modelled from the spec: the Rust `Debug` rendering of a `Category`,
used by the cache-key `convert` expression. -/
def Category.debug_fmt : Category → String
  | .artAndDesign => "ArtAndDesign"
  | .games => "Games"
  | .utilities => "Utilities"

/-- Modelled from the spec: the domain `Rating` value (in the `ratings`
module): item identifier, non-negative vote count, and band. -/
structure Rating where
  snap_id : String
  total_votes : Nat
  ratings_band : RatingsBand
deriving DecidableEq

/-- Modelled from the spec: one ranked chart entry — the raw
floating-point score used for ordering plus its `Rating`. -/
structure ChartData where
  raw_rating : Float
  rating : Rating

/-- Modelled from the spec: an ordered chart for a timeframe; order is
established upstream and preserved end-to-end. -/
structure Chart where
  timeframe : Timeframe
  data : List ChartData

/-- Modelled from the spec: one vote aggregate as returned by the external
store (already filtered and ordered), carrying everything the aggregator
copies into a `ChartData` (cf. the scenario in spec §8). -/
structure VoteSummary where
  snap_id : String
  raw_rating : Float
  total_votes : Nat
  ratings_band : RatingsBand

/-- Modelled from the spec: `Chart::new` (the Chart Aggregator, in the
`ratings` module) is a pure, total, synchronous transform mapping each
vote aggregate into a `ChartData`, performing no ordering, filtering or
deduplication. -/
def Chart.new (timeframe : Timeframe) (summaries : List VoteSummary) : Chart :=
  { timeframe := timeframe
    data := summaries.map fun s =>
      { raw_rating := s.raw_rating
        rating := { snap_id := s.snap_id
                    total_votes := s.total_votes
                    ratings_band := s.ratings_band } } }

/-- The wire `Rating` message (`proto::common::Rating`): the band travels
as a raw `i32` and a resolved display name is attached. -/
structure PbRating where
  snap_id : String
  total_votes : Nat
  ratings_band : Int
  snap_name : String
deriving DecidableEq

/-- The wire `ChartData` message (`proto::chart::ChartData`); `rating` is
an `optional` message field, hence `Option`. -/
structure PbChartData where
  raw_rating : Float
  rating : Option PbRating

/-- The wire `RatingsBand` enumeration (`proto::common::RatingsBand`). -/
inductive PbRatingsBand where
  | veryGood
  | good
  | neutral
  | poor
  | veryPoor
  | insufficientVotes
deriving DecidableEq

/-- Modelled from the spec: the prost-generated `i32` representation of the
wire enumeration (declaration-order ordinals, matching the domain order, as
both are generated from the same six-value list). -/
def PbRatingsBand.as_i32 : PbRatingsBand → Int
  | .veryGood => 0
  | .good => 1
  | .neutral => 2
  | .poor => 3
  | .veryPoor => 4
  | .insufficientVotes => 5

/-- `impl From<RatingsBand> for PbRatingsBand` (charts.rs lines 141-152):
the variant-by-variant mapping. -/
def PbRatingsBand.from_ratings_band : RatingsBand → PbRatingsBand
  | .veryGood => .veryGood
  | .good => .good
  | .neutral => .neutral
  | .poor => .poor
  | .veryPoor => .veryPoor
  | .insufficientVotes => .insufficientVotes

/-- `PbRating::from_rating_and_snap_name` (charts.rs lines 120-129). -/
def PbRating.from_rating_and_snap_name (rating : Rating) (snap_name : String) :
    PbRating :=
  { snap_id := rating.snap_id
    total_votes := rating.total_votes
    ratings_band := rating.ratings_band.as_i32
    snap_name := snap_name }

/-- `PbChartData::from_chart_data_and_snap_name` (charts.rs lines 108-118). -/
def PbChartData.from_chart_data_and_snap_name (chart_data : ChartData)
    (snap_name : String) : PbChartData :=
  { raw_rating := chart_data.raw_rating
    rating := some (PbRating.from_rating_and_snap_name chart_data.rating snap_name) }

/-- `impl From<PbRating> for Rating` (charts.rs lines 131-139). The source
calls `RatingsBand::from_repr(r.ratings_band).unwrap()`; the `unwrap` of
`None` panics, modelled here as `none`. -/
def Rating.from_pb (r : PbRating) : Option Rating :=
  match RatingsBand.from_repr r.ratings_band with
  | some band => some { snap_id := r.snap_id
                        total_votes := r.total_votes
                        ratings_band := band }
  | none => none

/-- The `crate::db::Error` a store fetch can fail with (opaque to this
core: it is only logged and collapsed to one generic status). -/
inductive DbError where
  | fetchFailed
deriving DecidableEq

/-- The `crate::ratings::Error` a snap-name lookup can fail with (opaque
to this core). -/
inductive RatingsError where
  | lookupFailed
deriving DecidableEq

/-- The subset of `tonic::Status` constructors relevant here, each carrying
its message. `invalid_argument`, `not_found`, `unknown` and `internal` are
distinct gRPC status codes (3, 5, 2 and 13). -/
inductive Status where
  | invalid_argument (msg : String)
  | not_found (msg : String)
  | unknown (msg : String)
  | internal (msg : String)
deriving DecidableEq

/-- The numeric gRPC status code carried by each modelled `tonic::Status`
constructor: `INVALID_ARGUMENT` = 3, `NOT_FOUND` = 5, `UNKNOWN` = 2,
`INTERNAL` = 13. -/
def Status.code : Status → Nat
  | .invalid_argument _ => 3
  | .not_found _ => 5
  | .unknown _ => 2
  | .internal _ => 13

/-- The external vote-summary store:
`VoteSummary::get_for_timeframe(timeframe, category, conn)`. -/
abbrev Store : Type :=
  Timeframe → Option Category → Except DbError (List VoteSummary)

/-- The external snap-name lookup: `get_snap_name(snap_id, uri, client)`
with the configuration arguments fixed. -/
abbrev Resolver : Type :=
  String → Except RatingsError String

/-! ## The chart cache (`#[cached(...)]` on `get_chart_cached`) -/

/-- The TTL of a cache entry: the `time = 86400` attribute argument
("24 hours"). -/
def cache_ttl : Nat := 86400

/-- One stored cache entry. Because of `result = true` only unwrapped `Ok`
charts are stored; the timestamp records when the computation completed. -/
structure CacheEntry where
  chart : Chart
  computed_at : Nat

/-- The cache map behind the memoized function: keys are the `convert`ed
strings, most recent binding first. -/
abbrev CacheState : Type := List (String × CacheEntry)

/-- First binding for a key, if any. -/
def CacheState.lookup : CacheState → String → Option CacheEntry
  | [], _ => none
  | (k, e) :: rest, key =>
    if k = key then some e else CacheState.lookup rest key

/-- `cache_get` on the `TimedCache`: a stored entry is returned while it is
younger than the TTL; an expired entry is treated as absent (lazy expiry,
checked per access). -/
def CacheState.get (s : CacheState) (now : Nat) (key : String) : Option Chart :=
  match s.lookup key with
  | some e => if now < e.computed_at + cache_ttl then some e.chart else none
  | none => none

/-- `cache_set` on the `TimedCache`: (re)bind the key to a fresh entry. -/
def CacheState.set (s : CacheState) (now : Nat) (key : String) (chart : Chart) :
    CacheState :=
  (key, { chart := chart, computed_at := now }) :: s.filter (fun p => p.1 != key)

/-- The `convert` expression of the attribute:
`format!("{:?}{:?}", category, timeframe)`, i.e. the concatenated `Debug`
renderings of the `Option<Category>` and the `Timeframe`. -/
def cache_key (category : Option Category) (timeframe : Timeframe) : String :=
  (match category with
   | some c => "Some(" ++ c.debug_fmt ++ ")"
   | none => "None") ++ timeframe.debug_fmt

/-- Outcome of one (atomic) call to the memoized function: the returned
result, the cache state it leaves behind, and how many store fetches it
performed (0 or 1). -/
structure CacheCallResult where
  result : Except DbError Chart
  state : CacheState
  fetches : Nat

/-- `get_chart_cached` (charts.rs lines 92-106) under the `cached`
attribute's documented expansion. With `sync_writes = true` the cache-wide
mutex is held for the whole body, so each call is atomic and concurrent
calls are equivalent to a sequential order of these atomic calls:
look up the `convert`ed key; on a live hit return the stored chart without
computing; otherwise run the body — `VoteSummary::get_for_timeframe`
followed by `Chart::new` — and, because of `result = true`, store the
chart only when the body returned `Ok`, returning an `Err` with the cache
untouched. -/
def get_chart_cached (store : Store) (s : CacheState) (now : Nat)
    (category : Option Category) (timeframe : Timeframe) : CacheCallResult :=
  let key := cache_key category timeframe
  match s.get now key with
  | some chart => { result := .ok chart, state := s, fetches := 0 }
  | none =>
    match store timeframe category with
    | .error e => { result := .error e, state := s, fetches := 1 }
    | .ok summaries =>
      let chart := Chart.new timeframe summaries
      { result := .ok chart, state := s.set now key chart, fetches := 1 }

/-! ## The `get_chart` handler -/

/-- The wire request message (`proto::chart::GetChartRequest`):
`timeframe` is a plain enum ordinal, `category` an optional one. -/
structure GetChartRequest where
  timeframe : Int
  category : Option Int

/-- The wire response message (`proto::chart::GetChartResponse`). -/
structure GetChartResponse where
  timeframe : Int
  category : Option Int
  ordered_chart_data : List PbChartData

/-- The category validation step (charts.rs lines 42-47):
`Category::from_repr(c).ok_or(Status::invalid_argument(...))?` inside
`Option::map`, i.e. an absent category stays absent and an unrecognized
ordinal aborts the handler with `invalid_argument`. -/
def decode_category : Option Int → Except Status (Option Category)
  | some c =>
    match Category.from_repr c with
    | some category => .ok (some category)
    | none => .error (Status.invalid_argument "invalid category value")
  | none => .ok none

/-- The enrichment fan-out (charts.rs lines 59-73):
`try_join_all(chart.data.into_iter().map(|chart_data| async { ... }))`.
`try_join_all` runs the lookups concurrently but collects positionally and
fails as a whole as soon as any lookup fails; since each lookup is an
independent pure call of `resolve` and the collected value is
position-indexed, the concurrent join is equivalent to this sequential
traversal. -/
def enrich_chart_data (resolve : Resolver) :
    List ChartData → Except RatingsError (List PbChartData)
  | [] => .ok []
  | chart_data :: rest => do
    let snap_name ← resolve chart_data.rating.snap_id
    let tail ← enrich_chart_data resolve rest
    .ok (PbChartData.from_chart_data_and_snap_name chart_data snap_name :: tail)

/-- Outcome of one `get_chart` call: the gRPC result plus the cache state
left behind and the number of store fetches performed. -/
structure GetChartOutcome where
  result : Except Status GetChartResponse
  state : CacheState
  fetches : Nat

/-- The body of `ChartService::get_chart` after validation (charts.rs
lines 51-88), over the already-decoded category and timeframe: consult
`get_chart_cached`, map an empty chart to `not_found`, enrich every entry,
collapse any store or enrichment failure to
`Status::unknown("Internal server error")`, and otherwise echo the decoded
timeframe and category alongside the ordered enriched data. -/
def get_chart_core (resolve : Resolver) (store : Store) (s : CacheState)
    (now : Nat) (category : Option Category) (timeframe : Timeframe) :
    GetChartOutcome :=
  let r := get_chart_cached store s now category timeframe
  match r.result with
  | .ok chart =>
    if chart.data.isEmpty then
      { result := .error (Status.not_found "Cannot find data for given timeframe.")
        state := r.state, fetches := r.fetches }
    else
      match enrich_chart_data resolve chart.data with
      | .error _ =>
        { result := .error (Status.unknown "Internal server error")
          state := r.state, fetches := r.fetches }
      | .ok ordered =>
        { result := .ok { timeframe := timeframe.as_i32
                          category := category.map Category.as_i32
                          ordered_chart_data := ordered }
          state := r.state, fetches := r.fetches }
  | .error _ =>
    { result := .error (Status.unknown "Internal server error")
      state := r.state, fetches := r.fetches }

/-- `ChartService::get_chart` (charts.rs lines 33-89): validate the
category (strict, lines 42-47), decode the timeframe leniently with
`Timeframe::from_repr(..).unwrap_or(Timeframe::Unspecified)` (line 49),
then run the post-validation body. -/
def get_chart (resolve : Resolver) (store : Store) (s : CacheState)
    (now : Nat) (req : GetChartRequest) : GetChartOutcome :=
  match decode_category req.category with
  | .error status => { result := .error status, state := s, fetches := 0 }
  | .ok category =>
    get_chart_core resolve store s now category
      ((Timeframe.from_repr req.timeframe).getD .unspecified)

/-! ## Helper lemmas -/

theorem RatingsBand.from_repr_as_i32 (b : RatingsBand) :
    RatingsBand.from_repr b.as_i32 = some b := by
  cases b <;> rfl

theorem RatingsBand.as_i32_of_from_repr {i : Int} {b : RatingsBand}
    (h : RatingsBand.from_repr i = some b) : b.as_i32 = i := by
  unfold RatingsBand.from_repr at h
  split_ifs at h <;> simp_all [RatingsBand.as_i32] <;> subst_vars <;> rfl

theorem decode_category_error_eq {o : Option Int} {st : Status}
    (h : decode_category o = .error st) :
    st = Status.invalid_argument "invalid category value" := by
  cases o with
  | none => simp [decode_category] at h
  | some c =>
    simp only [decode_category] at h
    cases hc : Category.from_repr c <;> rw [hc] at h <;> simp_all

theorem enrich_chart_data_ok (resolve : Resolver) (rn : String → String)
    (l : List ChartData)
    (h : ∀ cd ∈ l, resolve cd.rating.snap_id = .ok (rn cd.rating.snap_id)) :
    enrich_chart_data resolve l =
      .ok (l.map fun cd =>
        PbChartData.from_chart_data_and_snap_name cd (rn cd.rating.snap_id)) := by
  induction l with
  | nil => rfl
  | cons cd rest ih =>
    have hcd := h cd (List.mem_cons_self ..)
    have hrest := ih (fun x hx => h x (List.mem_cons_of_mem _ hx))
    simp only [enrich_chart_data, hcd, hrest, List.map_cons]
    rfl

theorem enrich_chart_data_error (resolve : Resolver) {l : List ChartData}
    {cd : ChartData} {e : RatingsError} (hmem : cd ∈ l)
    (hfail : resolve cd.rating.snap_id = .error e) :
    ∃ fail, enrich_chart_data resolve l = .error fail := by
  induction l with
  | nil => cases hmem
  | cons hd rest ih =>
    cases hmem with
    | head => exact ⟨e, by simp only [enrich_chart_data, hfail]; rfl⟩
    | tail _ hmem =>
      rcases ih hmem with ⟨e2, he2⟩
      cases hhd : resolve hd.rating.snap_id with
      | error e3 => exact ⟨e3, by simp only [enrich_chart_data, hhd]; rfl⟩
      | ok name => exact ⟨e2, by simp only [enrich_chart_data, hhd, he2]; rfl⟩

theorem get_chart_core_error_eq {resolve : Resolver} {store : Store}
    {s : CacheState} {now : Nat} {category : Option Category}
    {timeframe : Timeframe} {st : Status}
    (h : (get_chart_core resolve store s now category timeframe).result =
      .error st) :
    st = Status.not_found "Cannot find data for given timeframe." ∨
    st = Status.unknown "Internal server error" := by
  simp only [get_chart_core] at h
  split at h
  · split at h
    · exact Or.inl (by simpa using h.symm)
    · split at h
      · exact Or.inr (by simpa using h.symm)
      · simp at h
  · exact Or.inr (by simpa using h.symm)

/-! ## Claims -/

/-- **C9.** Each of the exactly six `RatingsBand` values survives the
round trip through its external representation: through the wire
enumeration `PbRatingsBand` and its `i32` ordinal back through
`from_repr`, and through the wire `Rating` message built by
`PbRating::from_rating_and_snap_name` back through
`From<PbRating> for Rating`. -/
theorem ratings_band_round_trip :
    (∀ b : RatingsBand,
      RatingsBand.from_repr (PbRatingsBand.from_ratings_band b).as_i32 =
        some b) ∧
    (∀ (r : Rating) (snap_name : String),
      Rating.from_pb (PbRating.from_rating_and_snap_name r snap_name) =
        some r) := by
  constructor
  · intro b; cases b <;> rfl
  · intro r snap_name
    rcases r with ⟨snap_id, total_votes, band⟩
    cases band <;> rfl

/-- **C10.** The conversion of a wire `PbRating` into a domain `Rating`
is partial: it yields a value exactly when the `ratings_band` integer is
the ordinal of one of the six `RatingsBand` variants; for every other
integer the `unwrap` of `None` panics (modelled as `none`). -/
theorem rating_from_pb_partial (r : PbRating) :
    (Rating.from_pb r).isSome ↔ ∃ b : RatingsBand, b.as_i32 = r.ratings_band := by
  unfold Rating.from_pb
  cases hb : RatingsBand.from_repr r.ratings_band with
  | some b =>
    simp only [Option.isSome_some, true_iff]
    exact ⟨b, RatingsBand.as_i32_of_from_repr hb⟩
  | none =>
    simp only [Option.isSome_none, Bool.false_eq_true, false_iff]
    rintro ⟨b, hab⟩
    have h2 := RatingsBand.from_repr_as_i32 b
    rw [hab, hb] at h2
    exact Option.noConfusion h2

theorem CacheState.get_set (s : CacheState) (now now2 : Nat) (key : String)
    (chart : Chart) (h : now2 < now + cache_ttl) :
    (s.set now key chart).get now2 key = some chart := by
  simp [CacheState.set, CacheState.get, CacheState.lookup, h]

theorem get_chart_cached_state_agree (store : Store) (s1 s2 : CacheState)
    (now : Nat) (category : Option Category) (timeframe : Timeframe)
    (hagree : s1.lookup (cache_key category timeframe) =
      s2.lookup (cache_key category timeframe)) :
    (get_chart_cached store s1 now category timeframe).result =
      (get_chart_cached store s2 now category timeframe).result ∧
    (get_chart_cached store s1 now category timeframe).fetches =
      (get_chart_cached store s2 now category timeframe).fetches := by
  have hget : s1.get now (cache_key category timeframe) =
      s2.get now (cache_key category timeframe) := by
    unfold CacheState.get
    rw [hagree]
  simp only [get_chart_cached]
  rw [hget]
  cases s2.get now (cache_key category timeframe) with
  | some chart => exact ⟨rfl, rfl⟩
  | none =>
    cases store timeframe category with
    | ok summaries => exact ⟨rfl, rfl⟩
    | error e => exact ⟨rfl, rfl⟩

theorem get_chart_core_ok_echo {resolve : Resolver} {store : Store}
    {s : CacheState} {now : Nat} {category : Option Category}
    {timeframe : Timeframe} {resp : GetChartResponse}
    (h : (get_chart_core resolve store s now category timeframe).result =
      .ok resp) :
    resp.timeframe = timeframe.as_i32 ∧
    resp.category = category.map Category.as_i32 := by
  simp only [get_chart_core] at h
  split at h
  · split at h
    · simp at h
    · split at h
      · simp at h
      · simp at h
        rw [← h]
        exact ⟨rfl, rfl⟩
  · simp at h

/-- **C6.** When the cache computation succeeds with a chart whose `data`
sequence is empty, `get_chart` reports `not_found`, never a successful
response with an empty entry list. -/
theorem empty_chart_not_found
    (resolve : Resolver) (store : Store) (s : CacheState) (now : Nat)
    (req : GetChartRequest) (category : Option Category) (chart : Chart)
    (hcat : decode_category req.category = .ok category)
    (hchart : (get_chart_cached store s now category
        ((Timeframe.from_repr req.timeframe).getD .unspecified)).result =
      .ok chart)
    (hempty : chart.data = []) :
    (get_chart resolve store s now req).result =
      .error (Status.not_found "Cannot find data for given timeframe.") := by
  unfold get_chart
  rw [hcat]
  show (get_chart_core resolve store s now category
      ((Timeframe.from_repr req.timeframe).getD .unspecified)).result = _
  simp only [get_chart_core]
  rw [hchart]
  simp [hempty]

/-- Witness for C6 at the spec's §8 scenario: the store returns zero
aggregates for `(category = Games, timeframe = Week)`. -/
theorem empty_chart_not_found_witness :
    (get_chart (fun _ => .ok "name") (fun _ _ => .ok []) [] 0
        { timeframe := 1, category := some 1 }).result =
      .error (Status.not_found "Cannot find data for given timeframe.") :=
  empty_chart_not_found _ _ _ _ _ (some .games) (Chart.new .week []) rfl rfl rfl

/-- **C7.** A request whose category ordinal does not decode to a known
`Category` is rejected with `invalid_argument` before any cache or store
interaction: for every store, resolver, cache state and time, the cache
state is returned unchanged and zero store fetches are performed. -/
theorem invalid_category_rejected_before_store
    (resolve : Resolver) (store : Store) (s : CacheState) (now : Nat)
    (req : GetChartRequest) (c : Int) (hc : req.category = some c)
    (hdec : Category.from_repr c = none) :
    get_chart resolve store s now req =
      { result := .error (Status.invalid_argument "invalid category value")
        state := s, fetches := 0 } := by
  unfold get_chart
  rw [hc]
  simp only [decode_category, hdec]

/-- Witness for C7 at the spec's §8 scenario input `category = 9999`. -/
theorem invalid_category_rejected_before_store_witness :
    get_chart (fun _ => .error .lookupFailed) (fun _ _ => .ok []) [] 0
        { timeframe := 1, category := some 9999 } =
      { result := .error (Status.invalid_argument "invalid category value")
        state := [], fetches := 0 } :=
  invalid_category_rejected_before_store _ _ _ _ _ 9999 rfl rfl

/-- **C8.** An unrecognized timeframe ordinal is decoded leniently: with a
category that decodes (or is absent), the request behaves exactly as if
the timeframe had been `Unspecified`'s own ordinal, it is never rejected
with the client error, and any successful response echoes the timeframe as
decoded, i.e. the `Unspecified` fallback. -/
theorem unrecognized_timeframe_fallback
    (resolve : Resolver) (store : Store) (s : CacheState) (now : Nat)
    (req : GetChartRequest) (category : Option Category)
    (htf : Timeframe.from_repr req.timeframe = none)
    (hcat : decode_category req.category = .ok category) :
    (get_chart resolve store s now req =
      get_chart resolve store s now
        { timeframe := Timeframe.unspecified.as_i32
          category := req.category }) ∧
    (∀ msg, (get_chart resolve store s now req).result ≠
      .error (Status.invalid_argument msg)) ∧
    (∀ resp, (get_chart resolve store s now req).result = .ok resp →
      resp.timeframe = Timeframe.unspecified.as_i32) := by
  have key : get_chart resolve store s now req =
      get_chart_core resolve store s now category .unspecified := by
    unfold get_chart
    rw [hcat]
    show get_chart_core resolve store s now category
        ((Timeframe.from_repr req.timeframe).getD .unspecified) = _
    rw [htf]
    rfl
  refine ⟨?_, ?_, ?_⟩
  · rw [key]
    unfold get_chart
    rw [hcat]
    rfl
  · intro msg hbad
    rw [key] at hbad
    rcases get_chart_core_error_eq hbad with h | h <;> exact Status.noConfusion h
  · intro resp hok
    rw [key] at hok
    exact (get_chart_core_ok_echo hok).1

/-- Witness for C8 at the undefined timeframe ordinal 999 with the valid
category ordinal 1: the call coincides with the `Unspecified` call and is
not the client error. -/
theorem unrecognized_timeframe_fallback_witness :
    (get_chart (fun _ => .ok "Alpha")
        (fun _ _ => .ok [{ snap_id := "a", raw_rating := 9.1,
                           total_votes := 500, ratings_band := .veryGood }])
        [] 0 { timeframe := 999, category := some 1 } =
      get_chart (fun _ => .ok "Alpha")
        (fun _ _ => .ok [{ snap_id := "a", raw_rating := 9.1,
                           total_votes := 500, ratings_band := .veryGood }])
        [] 0 { timeframe := Timeframe.unspecified.as_i32
               category := some 1 }) ∧
    (get_chart (fun _ => .ok "Alpha")
        (fun _ _ => .ok [{ snap_id := "a", raw_rating := 9.1,
                           total_votes := 500, ratings_band := .veryGood }])
        [] 0 { timeframe := 999, category := some 1 }).result ≠
      .error (Status.invalid_argument "invalid category value") := by
  have h := unrecognized_timeframe_fallback (fun _ => .ok "Alpha")
    (fun _ _ => .ok [{ snap_id := "a", raw_rating := 9.1,
                       total_votes := 500, ratings_band := .veryGood }])
    [] 0 { timeframe := 999, category := some 1 } (some .games) rfl rfl
  exact ⟨h.1, h.2.1 "invalid category value"⟩

/-- **C3 (amended).** `get_chart` produces exactly one of three statuses:
`INVALID_ARGUMENT` for an unrecognized category ordinal, `NOT_FOUND` for
an empty chart, and `UNKNOWN` with the message "Internal server error"
for any store or enrichment failure (the code constructs the gRPC
`UNKNOWN` status, code 2, not `INTERNAL`, code 13); no other status is
ever produced by this core. -/
theorem get_chart_status_outcomes
    (resolve : Resolver) (store : Store) (s : CacheState) (now : Nat)
    (req : GetChartRequest) (st : Status)
    (h : (get_chart resolve store s now req).result = .error st) :
    st = Status.invalid_argument "invalid category value" ∨
    st = Status.not_found "Cannot find data for given timeframe." ∨
    st = Status.unknown "Internal server error" := by
  unfold get_chart at h
  cases hc : decode_category req.category with
  | error st2 =>
    rw [hc] at h
    have h2 : st2 = st := Except.error.inj h
    exact Or.inl (h2 ▸ decode_category_error_eq hc)
  | ok category =>
    rw [hc] at h
    exact Or.inr (get_chart_core_error_eq h)

/-- Witness for C3 (amended), at a failing store: the produced status is
the third of the three listed outcomes. -/
theorem get_chart_status_outcomes_witness :
    Status.unknown "Internal server error" =
        Status.invalid_argument "invalid category value" ∨
    Status.unknown "Internal server error" =
        Status.not_found "Cannot find data for given timeframe." ∨
    Status.unknown "Internal server error" =
        Status.unknown "Internal server error" :=
  get_chart_status_outcomes (fun _ => .ok "n") (fun _ _ => .error .fetchFailed)
    [] 0 { timeframe := 1, category := none }
    (Status.unknown "Internal server error") rfl

/-- **C3 counterexample.** At a concrete store-failure input the code
produces the gRPC `UNKNOWN` status (`Status::unknown("Internal server
error")`, code 2), not the `INTERNAL` status (code 13) the claim names
for store failures. -/
theorem get_chart_status_internal_cex :
    ((get_chart (fun _ => .ok "n") (fun _ _ => .error .fetchFailed) [] 0
        { timeframe := 1, category := none }).result =
      .error (Status.unknown "Internal server error")) ∧
    Status.code (Status.unknown "Internal server error") ≠
      Status.code (Status.internal "Internal server error") :=
  ⟨rfl, by decide⟩

/-- **C4.** All-or-nothing enrichment: for every non-empty chart produced
by the cache computation, if any one of the enrichment lookups fails,
`get_chart` returns the generic internal-server-error outcome
(`Status::unknown("Internal server error")`, the one opaque failure
status of this handler) and no response payload is produced. -/
theorem enrichment_failure_all_or_nothing
    (resolve : Resolver) (store : Store) (s : CacheState) (now : Nat)
    (req : GetChartRequest) (category : Option Category) (chart : Chart)
    (cd : ChartData) (e : RatingsError)
    (hcat : decode_category req.category = .ok category)
    (hchart : (get_chart_cached store s now category
        ((Timeframe.from_repr req.timeframe).getD .unspecified)).result =
      .ok chart)
    (hmem : cd ∈ chart.data)
    (hfail : resolve cd.rating.snap_id = .error e) :
    (get_chart resolve store s now req).result =
      .error (Status.unknown "Internal server error") := by
  have hne : chart.data.isEmpty = false := by
    cases hd : chart.data with
    | nil => rw [hd] at hmem; cases hmem
    | cons a l => rfl
  rcases enrich_chart_data_error resolve hmem hfail with ⟨e2, he2⟩
  unfold get_chart
  rw [hcat]
  show (get_chart_core resolve store s now category
      ((Timeframe.from_repr req.timeframe).getD .unspecified)).result = _
  simp only [get_chart_core]
  rw [hchart]
  simp [hne, he2]

/-- Witness for C4: a one-entry chart whose single lookup fails. -/
theorem enrichment_failure_all_or_nothing_witness :
    (get_chart (fun _ => .error .lookupFailed)
        (fun _ _ => .ok [{ snap_id := "a", raw_rating := 9.1,
                           total_votes := 500, ratings_band := .veryGood }])
        [] 0 { timeframe := 1, category := none }).result =
      .error (Status.unknown "Internal server error") :=
  enrichment_failure_all_or_nothing _ _ _ _ _ none
    (Chart.new .week [{ snap_id := "a", raw_rating := 9.1,
                        total_votes := 500, ratings_band := .veryGood }])
    { raw_rating := 9.1,
      rating := { snap_id := "a", total_votes := 500,
                  ratings_band := .veryGood } }
    .lookupFailed rfl rfl (List.mem_cons_self ..) rfl

/-- **C5.** Order preservation: when every enrichment lookup succeeds on a
non-empty chart, the response's `ordered_chart_data` is exactly the
chart's `data` sequence mapped positionally through
`from_chart_data_and_snap_name` with each entry's resolved name, so its
i-th element is built from the i-th chart entry for every index i
(`try_join_all` collects positionally, not in completion order). -/
theorem enrichment_preserves_order
    (resolve : Resolver) (store : Store) (s : CacheState) (now : Nat)
    (req : GetChartRequest) (category : Option Category) (chart : Chart)
    (rn : String → String)
    (hcat : decode_category req.category = .ok category)
    (hchart : (get_chart_cached store s now category
        ((Timeframe.from_repr req.timeframe).getD .unspecified)).result =
      .ok chart)
    (hne : chart.data ≠ [])
    (hok : ∀ cd ∈ chart.data,
      resolve cd.rating.snap_id = .ok (rn cd.rating.snap_id)) :
    ∃ resp, (get_chart resolve store s now req).result = .ok resp ∧
      resp.ordered_chart_data =
        chart.data.map (fun cd =>
          PbChartData.from_chart_data_and_snap_name cd
            (rn cd.rating.snap_id)) ∧
      ∀ i : Nat, resp.ordered_chart_data.get? i =
        (chart.data.get? i).map (fun cd =>
          PbChartData.from_chart_data_and_snap_name cd
            (rn cd.rating.snap_id)) := by
  have hne2 : chart.data.isEmpty = false := by
    cases hd : chart.data with
    | nil => exact absurd hd hne
    | cons a l => rfl
  have he := enrich_chart_data_ok resolve rn chart.data hok
  refine ⟨{ timeframe :=
              ((Timeframe.from_repr req.timeframe).getD .unspecified).as_i32
            category := category.map Category.as_i32
            ordered_chart_data := chart.data.map (fun cd =>
              PbChartData.from_chart_data_and_snap_name cd
                (rn cd.rating.snap_id)) }, ?_, rfl, ?_⟩
  · unfold get_chart
    rw [hcat]
    show (get_chart_core resolve store s now category
        ((Timeframe.from_repr req.timeframe).getD .unspecified)).result = _
    simp only [get_chart_core]
    rw [hchart]
    simp [hne2, he]
  · intro i
    exact List.get?_map _ _ _

/-- Witness for C5 at the spec's §8 scenario: two entries `a` (9.1,
VeryGood) and `b` (7.0, Neutral), resolving to "Alpha" and "Beta". -/
theorem enrichment_preserves_order_witness :
    ∃ resp, (get_chart (fun id => .ok (if id = "a" then "Alpha" else "Beta"))
        (fun _ _ => .ok [{ snap_id := "a", raw_rating := 9.1,
                           total_votes := 500, ratings_band := .veryGood },
                         { snap_id := "b", raw_rating := 7.0,
                           total_votes := 10, ratings_band := .neutral }])
        [] 0 { timeframe := 1, category := none }).result = .ok resp ∧
      resp.ordered_chart_data =
        (Chart.new .week [{ snap_id := "a", raw_rating := 9.1,
                            total_votes := 500, ratings_band := .veryGood },
                          { snap_id := "b", raw_rating := 7.0,
                            total_votes := 10,
                            ratings_band := .neutral }]).data.map (fun cd =>
          PbChartData.from_chart_data_and_snap_name cd
            (if cd.rating.snap_id = "a" then "Alpha" else "Beta")) ∧
      ∀ i : Nat, resp.ordered_chart_data.get? i =
        ((Chart.new .week [{ snap_id := "a", raw_rating := 9.1,
                             total_votes := 500, ratings_band := .veryGood },
                           { snap_id := "b", raw_rating := 7.0,
                             total_votes := 10,
                             ratings_band := .neutral }]).data.get? i).map
          (fun cd => PbChartData.from_chart_data_and_snap_name cd
            (if cd.rating.snap_id = "a" then "Alpha" else "Beta")) :=
  enrichment_preserves_order
    (fun id => .ok (if id = "a" then "Alpha" else "Beta"))
    (fun _ _ => .ok [{ snap_id := "a", raw_rating := 9.1,
                       total_votes := 500, ratings_band := .veryGood },
                     { snap_id := "b", raw_rating := 7.0,
                       total_votes := 10, ratings_band := .neutral }])
    [] 0 { timeframe := 1, category := none } none
    (Chart.new .week [{ snap_id := "a", raw_rating := 9.1,
                        total_votes := 500, ratings_band := .veryGood },
                      { snap_id := "b", raw_rating := 7.0,
                        total_votes := 10, ratings_band := .neutral }])
    (fun id => if id = "a" then "Alpha" else "Beta")
    rfl rfl (List.cons_ne_nil _ _) (fun cd _ => rfl)

/-- **C1 counterexample.** With an empty cache and a failing store, the
first `get_chart_cached` call for `(None, Week)` returns the store error
but leaves the cache empty, and a second call for the same key at the
very same instant (well within the TTL) performs another store fetch
instead of returning a cached error without fetching: the failed result
was not stored in the cache entry for the TTL. -/
theorem store_error_cached_cex :
    ((get_chart_cached (fun _ _ => .error .fetchFailed) [] 0 none
        .week).result = .error DbError.fetchFailed) ∧
    ((get_chart_cached (fun _ _ => .error .fetchFailed) [] 0 none
        .week).state = []) ∧
    ((get_chart_cached (fun _ _ => .error .fetchFailed)
        (get_chart_cached (fun _ _ => .error .fetchFailed) [] 0 none
          .week).state
        0 none .week).fetches = 1) :=
  ⟨rfl, rfl, rfl⟩

/-- **C1 (amended).** A store-fetch failure during a cache computation is
returned to the caller but is *not* stored in the cache — the attribute's
`result = true` caches only `Ok` charts — so the cache state is left
unchanged, the failing call performed its own store fetch, and every
subsequent `get_or_compute` call for the same key that still misses
invokes a new store fetch rather than finding a cached error. -/
theorem store_error_not_cached
    (store : Store) (s : CacheState) (now : Nat) (category : Option Category)
    (timeframe : Timeframe) (e : DbError)
    (hmiss : s.get now (cache_key category timeframe) = none)
    (hstore : store timeframe category = .error e) :
    get_chart_cached store s now category timeframe =
      { result := .error e, state := s, fetches := 1 } := by
  simp only [get_chart_cached]
  rw [hmiss, hstore]

/-- Witness for C1 (amended) with a failing store on the empty cache. -/
theorem store_error_not_cached_witness :
    get_chart_cached (fun _ _ => .error .fetchFailed) [] 0 none .week =
      { result := .error DbError.fetchFailed, state := [], fetches := 1 } :=
  store_error_not_cached (fun _ _ => .error .fetchFailed) [] 0 none .week
    .fetchFailed rfl rfl

/-- **C2 counterexample.** Two callers of the same missing key — executed
in the order the cache-wide `sync_writes` mutex admits them — against a
failing store perform two store fetches in total, not exactly one
computation whose result all callers receive. -/
theorem single_flight_cex :
    (get_chart_cached (fun _ _ => .error .fetchFailed) [] 0 none
        .week).fetches +
      (get_chart_cached (fun _ _ => .error .fetchFailed)
        (get_chart_cached (fun _ _ => .error .fetchFailed) [] 0 none
          .week).state
        0 none .week).fetches = 2 :=
  rfl

/-- **C2 (amended).** Single flight holds for successful computations
under the serialized cache semantics (the `sync_writes = true` mutex is
held across the whole computation, so concurrent calls execute as some
sequential order of atomic calls): when a missing key is computed and the
store fetch succeeds, that single fetch serves every later call for the
same key within the TTL — such a call performs zero store fetches against
*any* store and receives the very same chart — while a call's result and
fetch count depend only on the cache entry stored for its own key, never
on entries for other keys. (When the fetch fails, nothing is cached and
each caller fetches again; see the counterexample.) -/
theorem single_flight_success
    (store : Store) (s : CacheState) (now : Nat) (category : Option Category)
    (timeframe : Timeframe) (summaries : List VoteSummary)
    (hmiss : s.get now (cache_key category timeframe) = none)
    (hstore : store timeframe category = .ok summaries) :
    ((get_chart_cached store s now category timeframe).result =
        .ok (Chart.new timeframe summaries) ∧
      (get_chart_cached store s now category timeframe).fetches = 1) ∧
    (∀ (store2 : Store) (now2 : Nat), now2 < now + cache_ttl →
      get_chart_cached store2
          (get_chart_cached store s now category timeframe).state
          now2 category timeframe =
        { result := .ok (Chart.new timeframe summaries)
          state := (get_chart_cached store s now category timeframe).state
          fetches := 0 }) ∧
    (∀ (store2 : Store) (s1 s2 : CacheState) (now2 : Nat)
        (category2 : Option Category) (timeframe2 : Timeframe),
      s1.lookup (cache_key category2 timeframe2) =
        s2.lookup (cache_key category2 timeframe2) →
      (get_chart_cached store2 s1 now2 category2 timeframe2).result =
          (get_chart_cached store2 s2 now2 category2 timeframe2).result ∧
        (get_chart_cached store2 s1 now2 category2 timeframe2).fetches =
          (get_chart_cached store2 s2 now2 category2 timeframe2).fetches) := by
  have hmain : get_chart_cached store s now category timeframe =
      { result := .ok (Chart.new timeframe summaries)
        state := s.set now (cache_key category timeframe)
          (Chart.new timeframe summaries)
        fetches := 1 } := by
    simp only [get_chart_cached]
    rw [hmiss, hstore]
  refine ⟨⟨by rw [hmain], by rw [hmain]⟩, ?_, ?_⟩
  · intro store2 now2 h2
    rw [hmain]
    simp only [get_chart_cached]
    rw [CacheState.get_set s now now2 (cache_key category timeframe)
      (Chart.new timeframe summaries) h2]
  · intro store2 s1 s2 now2 category2 timeframe2 hagree
    exact get_chart_cached_state_agree store2 s1 s2 now2 category2
      timeframe2 hagree

/-- Witness for C2 (amended): the key `(None, Week)` is computed once at
time 0 from a successful store; a second call at time 100 — even against
a store that would now fail — fetches nothing and returns the same
chart. -/
theorem single_flight_success_witness :
    ((get_chart_cached
        (fun _ _ => .ok [{ snap_id := "a", raw_rating := 9.1,
                           total_votes := 500, ratings_band := .veryGood }])
        [] 0 none .week).result =
      .ok (Chart.new .week [{ snap_id := "a", raw_rating := 9.1,
                              total_votes := 500,
                              ratings_band := .veryGood }])) ∧
    (get_chart_cached (fun _ _ => .error .fetchFailed)
        (get_chart_cached
          (fun _ _ => .ok [{ snap_id := "a", raw_rating := 9.1,
                             total_votes := 500,
                             ratings_band := .veryGood }])
          [] 0 none .week).state
        100 none .week =
      { result := .ok (Chart.new .week [{ snap_id := "a", raw_rating := 9.1,
                                          total_votes := 500,
                                          ratings_band := .veryGood }])
        state := (get_chart_cached
          (fun _ _ => .ok [{ snap_id := "a", raw_rating := 9.1,
                             total_votes := 500,
                             ratings_band := .veryGood }])
          [] 0 none .week).state
        fetches := 0 }) := by
  have h := single_flight_success
    (fun _ _ => .ok [{ snap_id := "a", raw_rating := 9.1,
                       total_votes := 500, ratings_band := .veryGood }])
    [] 0 none .week
    [{ snap_id := "a", raw_rating := 9.1, total_votes := 500,
       ratings_band := .veryGood }]
    rfl rfl
  exact ⟨h.1.1, h.2.1 (fun _ _ => .error .fetchFailed) 100 (by decide)⟩
